import Mathlib

/-!
# Verification of the standalone client's message-delivery orchestration

Shallow embedding of `src/client/index.ts` of the standalone provider client.
JavaScript numbers are modelled as exact rationals (`ℚ`), fallible external
collaborators (the subscription controller's `sendMessage` /
`sendMessageLocally`, the ledger runtime's message construction and
transaction decoding) are passed in as explicit parameters returning
`Option` / `Except`, and thrown JS exceptions are modelled with `Except`.
-/

namespace StandaloneClient

/-- A ledger transaction as far as the client logic observes it: an abstract
identifier and the optional exit code read by the error-reporting paths. -/
structure Transaction where
  id : Nat
  exitCode : Option Int
deriving DecidableEq, Repr

/-- Decoded ABI output of a transaction; its structure is irrelevant to the
client logic, so it is kept abstract as a string. -/
abbrev TokensObject := String

/-- `NekotonRpcError` as observed by callers: numeric code and message
(`invalidRequest` always uses code 2). -/
structure RpcError where
  code : Int
  message : String
deriving DecidableEq, Repr

/-- `invalidRequest(req, message)` from `src/client/index.ts`:
`new NekotonRpcError(2, `\x7breq.method\x7d: \x7bmessage\x7d`, data)`. -/
def invalidRequest (method detail : String) : RpcError :=
  { code := 2, message := method ++ ": " ++ detail }

/-- An error escaping a provider handler: either a `NekotonRpcError` built via
`invalidRequest`, or a rejection from a collaborator that propagates to the
caller unwrapped (no `try`/`catch` around the call). -/
inductive ThrownError where
  | rpc (e : RpcError)
  | raw (s : String)
deriving DecidableEq, Repr

/-- `MessageProperties` input: all three fields optional, arbitrary JS
numbers. -/
structure MessageProperties where
  retryCount : Option ℚ
  timeout : Option ℚ
  timeoutGrowFactor : Option ℚ
deriving DecidableEq, Repr

/-- The validated `Required<MessageProperties>`. `retryCount` and `timeout`
are integers after the `~~` coercion; the growth factor stays a raw number. -/
structure ValidatedMessageProperties where
  retryCount : Int
  timeout : Int
  timeoutGrowFactor : ℚ
deriving DecidableEq, Repr

/-- Truncation of a rational toward zero, the rounding step of JS `~~x`
(`Int.tdiv` is T-division, i.e. rounding toward zero). -/
def ratTrunc (q : ℚ) : Int :=
  Int.tdiv q.num (q.den : Int)

/-- JS `~~x` (`ToInt32`): truncate toward zero, then wrap into
`[-2^31, 2^31)`. -/
def toInt32 (q : ℚ) : Int :=
  Int.emod (ratTrunc q + 2 ^ 31) (2 ^ 32) - 2 ^ 31

/-- `validateMessageProperties` from `src/client/index.ts`:
`retryCount: m.retryCount != null ? Math.max(1, ~~m.retryCount) : 5`,
`timeout: m.timeout != null ? Math.max(1, ~~m.timeout) : 60`,
`timeoutGrowFactor: m.timeoutGrowFactor || 1.2` (JS `||`: a falsy supplied
value, i.e. `0`, also falls back to `1.2`). -/
def validateMessageProperties (m : MessageProperties) : ValidatedMessageProperties :=
  { retryCount :=
      match m.retryCount with
      | some q => max 1 (toInt32 q)
      | none => 5
    timeout :=
      match m.timeout with
      | some q => max 1 (toInt32 q)
      | none => 60
    timeoutGrowFactor :=
      match m.timeoutGrowFactor with
      | some g => if g = 0 then 1.2 else g
      | none => 1.2 }

/-- Result of a successful send operation: the confirmed transaction plus the
best-effort decoded output. -/
structure SendResult where
  transaction : Transaction
  output : Option TokensObject
deriving DecidableEq, Repr

/-- `handleTransaction` closure from `sendUnsignedExternalMessage` /
`sendExternalMessage`: decodes the transaction inside a `try`/`catch` that
swallows every failure, leaving `output` undefined. `decode tx = .ok none`
models `nekoton.decodeTransaction` returning `undefined`. -/
def handleTransaction (decode : Transaction → Except String (Option TokensObject))
    (tx : Transaction) : SendResult :=
  { transaction := tx
    output :=
      match decode tx with
      | .ok o => o
      | .error _ => none }

/-- The `for (let retry = 0; retry < retryCount; ++retry)` loop shared by
`sendUnsignedExternalMessage` and `sendExternalMessage`. Arguments:
`mkMsg` models `makeSignedMessage` (throwing is wrapped in `invalidRequest`),
`net i` is the resolution of the `i`-th `subscriptionController.sendMessage`
call (`none` = expired without confirmation), `g` the growth factor. State:
remaining iterations, attempt index, current `timeout` variable. Returns the
timeouts passed to `makeSignedMessage` in order, and either a thrown
`RpcError`, a confirmed transaction, or `none` when the budget is exhausted. -/
def retryLoop (method : String) (mkMsg : ℚ → Except String Unit)
    (net : Nat → Option Transaction) (g : ℚ) :
    Nat → Nat → ℚ → List ℚ × Except RpcError (Option Transaction)
  | 0, _, _ => ([], .ok none)
  | fuel + 1, attempt, timeout =>
    match mkMsg timeout with
    | .error e => ([timeout], .error (invalidRequest method e))
    | .ok _ =>
      match net attempt with
      | some tx => ([timeout], .ok (some tx))
      | none =>
        let rest := retryLoop method mkMsg net g fuel (attempt + 1) (timeout * g)
        (timeout :: rest.1, rest.2)

/-- The suffix appended to `"Message expired"`:
`transaction.exitCode != null ? `. Possible exit code: \x7b..\x7d` : ''`. -/
def exitCodeSuffix (tx : Transaction) : String :=
  match tx.exitCode with
  | some n => ". Possible exit code: " ++ toString n
  | none => ""

/-- The shared body of `sendUnsignedExternalMessage` and
`sendExternalMessage` after parameter validation and address repacking
(the two handlers are line-for-line identical from the `local === true`
check on). `localExec` is the resolution of
`subscriptionController.sendMessageLocally`; its rejection in the
force-local branch propagates unwrapped (`.raw`), while in the fallback
branch it is caught and wrapped via `invalidRequest`. Returns the list of
timeouts passed to `makeSignedMessage` and the handler's outcome. -/
def externalSendFlow (method : String) (props : ValidatedMessageProperties)
    (mkMsg : ℚ → Except String Unit) (net : Nat → Option Transaction)
    (localExec : Except String Transaction)
    (decode : Transaction → Except String (Option TokensObject))
    (localFlag : Option Bool) : List ℚ × Except ThrownError SendResult :=
  if localFlag = some true then
    -- Force local execution
    match mkMsg 60 with
    | .error e => ([60], .error (.rpc (invalidRequest method e)))
    | .ok _ =>
      match localExec with
      | .error e => ([60], .error (.raw e))
      | .ok tx => ([60], .ok (handleTransaction decode tx))
  else
    -- Send and wait with several retries
    let loop := retryLoop method mkMsg net props.timeoutGrowFactor
      props.retryCount.toNat 0 (props.timeout : ℚ)
    match loop.2 with
    | .error e => (loop.1, .error (.rpc e))
    | .ok (some tx) => (loop.1, .ok (handleTransaction decode tx))
    | .ok none =>
      -- Execute locally
      match mkMsg 60 with
      | .error e => (loop.1 ++ [60], .error (.rpc (invalidRequest method e)))
      | .ok _ =>
        match localExec with
        | .error e =>
          (loop.1 ++ [60], .error (.rpc (invalidRequest method ("Message expired. " ++ e))))
        | .ok tx =>
          (loop.1 ++ [60], .error (.rpc (invalidRequest method ("Message expired" ++ exitCodeSuffix tx))))

/-- The `sendMessage` provider handler after parameter validation and address
repacking. `account` is the `accountsStorage.getAccount` / `prepareMessage`
outcome: `none` = sender not found (the handler's own
`new Error('Sender not found')`, whose `toString()` is
`"Error: Sender not found"`, caught and wrapped), `some (.error e)` = message
preparation failed, `some (.ok _)` = a signed message was produced. `net i`
resolves the `i`-th `subscriptionController.sendMessage` call. Returns the
number of `subscriptionController.sendMessage` calls made and the outcome:
the handler performs at most ONE network send, with no retry loop and no
local fallback. -/
def sendMessageHandler (account : Option (Except String Unit))
    (net : Nat → Option Transaction) : Nat × Except ThrownError Transaction :=
  match account with
  | none => (0, .error (.rpc (invalidRequest "sendMessage" "Error: Sender not found")))
  | some (.error e) => (0, .error (.rpc (invalidRequest "sendMessage" e)))
  | some (.ok _) =>
    match net 0 with
    | none => (1, .error (.rpc (invalidRequest "sendMessage" "Message expired")))
    | some tx => (1, .ok tx)

/-- A signed message as the delayed-send handlers observe it. -/
structure SignedMessage where
  hash : String
  expireAt : Nat
deriving DecidableEq, Repr

/-- The immediately-returned value of `sendMessageDelayed` /
`sendExternalMessageDelayed`. -/
structure DelayedMessage where
  account : String
  hash : String
  expireAt : Nat
deriving DecidableEq, Repr

/-- Events pushed through `ctx.notify` that the embedded fragments emit. -/
inductive ProviderEvent where
  | messageStatusUpdated (address : String) (hash : String)
      (transaction : Option Transaction)
  | permissionsChanged (basic : Option Bool)
deriving DecidableEq, Repr

/-- Tail of `sendMessageDelayed` (lines 954-971): fire
`subscriptionController.sendMessage` in the background — `.then` emits one
`messageStatusUpdated` event (also when the resolved transaction is `null`),
`.catch(console.error)` swallows a rejection without emitting — and return
`\x7b message: \x7b account, hash, expireAt \x7d \x7d` immediately. `bg` is
the background promise's settlement. -/
def sendMessageDelayedTail (repackedSender : String) (signedMessage : SignedMessage)
    (bg : Except String (Option Transaction)) :
    DelayedMessage × List ProviderEvent :=
  ({ account := repackedSender
     hash := signedMessage.hash
     expireAt := signedMessage.expireAt },
   match bg with
   | .ok transaction =>
     [.messageStatusUpdated repackedSender signedMessage.hash transaction]
   | .error _ => [])

/-- Tail of `sendExternalMessageDelayed` (lines 1117-1134); textually the
same logic as `sendMessageDelayedTail`, addressed to the repacked
recipient. -/
def sendExternalMessageDelayedTail (repackedRecipient : String)
    (signedMessage : SignedMessage) (bg : Except String (Option Transaction)) :
    DelayedMessage × List ProviderEvent :=
  ({ account := repackedRecipient
     hash := signedMessage.hash
     expireAt := signedMessage.expireAt },
   match bg with
   | .ok transaction =>
     [.messageStatusUpdated repackedRecipient signedMessage.hash transaction]
   | .error _ => [])

/-! ## Permissions and object identity

`requestPermissions` relies on JS reference semantics: `ctx.permissions` is a
reference to a permissions object, `\x7b ...obj \x7d` allocates a fresh copy.
We model the heap explicitly: a list of permission objects addressed by
index. -/

/-- `Partial<ever.RawPermissions>` restricted to what the standalone provider
can grant: the `basic` flag (`none` = key absent). -/
structure PermMap where
  basic : Option Bool
deriving DecidableEq, Repr

/-- A heap of permission objects; a reference is an index into `cells`. -/
structure Heap where
  cells : List PermMap
deriving DecidableEq, Repr

/-- Allocate a fresh object, returning the new heap and its reference. -/
def Heap.alloc (h : Heap) (v : PermMap) : Heap × Nat :=
  (⟨h.cells ++ [v]⟩, h.cells.length)

/-- Dereference. -/
def Heap.read (h : Heap) (r : Nat) : Option PermMap :=
  h.cells[r]?

/-- Mutate the object behind a reference (out-of-range writes are no-ops,
matching `List.set`). -/
def Heap.write (h : Heap) (r : Nat) (v : PermMap) : Heap :=
  ⟨h.cells.set r v⟩

/-- A requested permission name: the supported `'basic'`, its legacy alias
`'tonClient'`, or anything else. -/
inductive Permission where
  | basic
  | tonClient
  | other (name : String)
deriving DecidableEq, Repr

/-- Whether the standalone provider supports a requested permission. -/
def Permission.supported : Permission → Bool
  | .basic => true
  | .tonClient => true
  | .other _ => false

/-- The `for (const permission of permissions)` loop of `requestPermissions`:
set `newPermissions.basic = true` for `'basic'`/`'tonClient'`, throw
`invalidRequest` at the first unsupported name. -/
def processPermissions (cur : PermMap) : List Permission → Except RpcError PermMap
  | [] => .ok cur
  | .basic :: rest => processPermissions { cur with basic := some true } rest
  | .tonClient :: rest => processPermissions { cur with basic := some true } rest
  | .other name :: _ =>
    .error (invalidRequest "requestPermissions"
      ("Permission '" ++ name ++ "' is not supported by standalone provider"))

/-- The mutable provider context as far as permissions go: a reference to the
current permissions object. -/
structure Ctx where
  permissionsRef : Nat
deriving DecidableEq, Repr

/-- `requestPermissions` handler (lines 292-315):
`const newPermissions = \x7b ...ctx.permissions \x7d` allocates a copy; the
loop mutates it (modelled as one write of the final value — the partial
writes are unobservable because the exception discards the object before
`ctx.permissions` is reassigned); on success `ctx.permissions` is repointed
at it, a `permissionsChanged` event carries another copy by value, and
`return \x7b ...newPermissions \x7d` allocates yet another fresh object.
Returns (heap, context, events, thrown-or-returned-reference). -/
def requestPermissionsModel (h : Heap) (ctx : Ctx) (perms : List Permission) :
    Heap × Ctx × List ProviderEvent × Except RpcError Nat :=
  let cur := (h.read ctx.permissionsRef).getD { basic := none }
  let alloc1 := h.alloc cur
  match processPermissions cur perms with
  | .error e => (alloc1.1, ctx, [], .error e)
  | .ok final =>
    let h2 := alloc1.1.write alloc1.2 final
    let ctx2 : Ctx := { permissionsRef := alloc1.2 }
    let alloc2 := h2.alloc final
    (alloc2.1, ctx2, [.permissionsChanged final.basic], .ok alloc2.2)

/-- The `permissions` field of `getProviderState`'s result:
`\x7b ...ctx.permissions \x7d`, i.e. the value currently stored behind the
context's permissions reference (copied, so returned by value). -/
def getProviderStatePermissions (h : Heap) (ctx : Ctx) : PermMap :=
  (h.read ctx.permissionsRef).getD { basic := none }

/-- Formalisation of the spec's error-format contract, used to state C8:
an error "carries a message of the form `\x7bmethod\x7d: \x7bdetail\x7d`
together with a machine-readable numeric code" only when it is an
`RpcError` whose message starts with the method name, a colon and a space
(a raw, unwrapped rejection carries no code at all). -/
def ThrownError.isMethodPrefixedRpc (method : String) : ThrownError → Bool
  | .rpc e => (method ++ ": ").isPrefixOf e.message
  | .raw _ => false

/-! ## Helper lemmas about the retry loop -/

/-- When message construction always succeeds and no network attempt
confirms, the retry loop exhausts its whole budget, building one message per
attempt with timeouts `t, t*g, t*g^2, …`, and reports no confirmation. -/
theorem retryLoop_allNone (method : String) (mkMsg : ℚ → Except String Unit)
    (net : Nat → Option Transaction) (g : ℚ)
    (hmk : ∀ q, mkMsg q = .ok ()) (hnet : ∀ i, net i = none) :
    ∀ fuel attempt t, retryLoop method mkMsg net g fuel attempt t
      = ((List.range fuel).map fun i => t * g ^ i, .ok none) := by
  intro fuel
  induction fuel with
  | zero => intro attempt t; simp [retryLoop]
  | succ n ih =>
    intro attempt t
    rw [retryLoop, hmk, hnet, ih (attempt + 1) (t * g)]
    have hpow : ∀ i : Nat, t * g * g ^ i = t * g ^ (i + 1) := by
      intro i; rw [pow_succ]; ring
    simp [List.range_succ_eq_map, List.map_map, Function.comp_def, hpow]

/-- Every `RpcError` escaping the retry loop was built by `invalidRequest`
for the handler's own method name. -/
theorem retryLoop_error_form (method : String) (mkMsg : ℚ → Except String Unit)
    (net : Nat → Option Transaction) (g : ℚ) :
    ∀ fuel attempt t e, (retryLoop method mkMsg net g fuel attempt t).2 = .error e →
      ∃ d, e = invalidRequest method d := by
  intro fuel
  induction fuel with
  | zero => intro attempt t e h; simp [retryLoop] at h
  | succ n ih =>
    intro attempt t e h
    rw [retryLoop] at h
    cases hmk : mkMsg t with
    | error s =>
      rw [hmk] at h
      simp at h
      exact ⟨s, h.symm⟩
    | ok u =>
      rw [hmk] at h
      cases hn : net attempt with
      | some tx => rw [hn] at h; simp at h
      | none =>
        rw [hn] at h
        simp at h
        exact ih (attempt + 1) (t * g) e h

/-- C2: for a send operation configured with `retryCount=5, timeout=60,
timeoutGrowFactor=1.2` in which every network attempt resolves without
confirmation, the per-attempt timeouts passed to message construction are
exactly `[60, 72, 86.4, 103.68, 124.416]`, each attempt's timeout being the
previous one multiplied by the growth factor and never reset within the
operation. -/
theorem C2_retry_timeout_sequence (mkMsg : ℚ → Except String Unit)
    (net : Nat → Option Transaction)
    (hmk : ∀ q, mkMsg q = .ok ()) (hnet : ∀ i, net i = none) :
    (retryLoop "sendExternalMessage" mkMsg net
        (validateMessageProperties ⟨some 5, some 60, some 1.2⟩).timeoutGrowFactor
        (validateMessageProperties ⟨some 5, some 60, some 1.2⟩).retryCount.toNat 0
        ((validateMessageProperties ⟨some 5, some 60, some 1.2⟩).timeout : ℚ)).1
      = [60, 72, 86.4, 103.68, 124.416]
    ∧ List.Chain' (fun a b : ℚ => b = a * 1.2) [60, 72, 86.4, 103.68, 124.416] := by
  have h5 : toInt32 5 = 5 := by norm_num [toInt32, ratTrunc]
  have h60 : toInt32 60 = 60 := by norm_num [toInt32, ratTrunc]
  have hv : validateMessageProperties ⟨some 5, some 60, some 1.2⟩ = ⟨5, 60, 1.2⟩ := by
    simp [validateMessageProperties, h5, h60]
  rw [hv]
  rw [retryLoop_allNone _ _ _ _ hmk hnet]
  constructor
  · simp [List.range_succ]
    norm_num
  · simp [List.chain'_cons, List.chain'_singleton]
    norm_num

/-- C3: for every send operation through the external-message retry flow
without the force-local flag, when every network attempt resolves without
confirmation and the local fallback execution yields a transaction, the
handler fails with an `RpcError` whose detail is exactly `"Message expired"`
followed by `". Possible exit code: n"` precisely when the local
transaction's exit code is non-null (the full message carries the
documented `"\x7bmethod\x7d: "` prefix). -/
theorem C3_message_expired_after_fallback (method : String)
    (props : ValidatedMessageProperties) (mkMsg : ℚ → Except String Unit)
    (net : Nat → Option Transaction)
    (decode : Transaction → Except String (Option TokensObject))
    (tx : Transaction) (localFlag : Option Bool)
    (hmk : ∀ q, mkMsg q = .ok ()) (hnet : ∀ i, net i = none)
    (hlocal : localFlag ≠ some true) :
    (externalSendFlow method props mkMsg net (.ok tx) decode localFlag).2
      = .error (.rpc ⟨2, method ++ ": " ++ ("Message expired" ++ exitCodeSuffix tx)⟩)
    ∧ (exitCodeSuffix tx = "" ↔ tx.exitCode = none)
    ∧ (∀ n, tx.exitCode = some n →
        exitCodeSuffix tx = ". Possible exit code: " ++ toString n) := by
  refine ⟨?_, ?_, ?_⟩
  · rw [externalSendFlow, if_neg hlocal]
    rw [retryLoop_allNone _ _ _ _ hmk hnet]
    simp [hmk, invalidRequest]
  · cases h : tx.exitCode with
    | none => simp [exitCodeSuffix, h]
    | some n =>
      simp [exitCodeSuffix, h]
      intro habs
      have := congrArg String.length habs
      simp [String.length_append] at this
      exact absurd this.1 (by decide)
  · intro n h
    simp [exitCodeSuffix, h]

/-- C4: message-property validation supplies default `retryCount = 5`,
default `timeout = 60` and default `timeoutGrowFactor = 1.2` for missing
fields, clamps supplied `retryCount` and `timeout` to a minimum of 1 (after
the JS `~~` int32 coercion), and the growth factor is applied
multiplicatively and cumulatively across retries — the `i`-th attempt uses
timeout `t * g ^ i` — without being reset within a send operation. -/
theorem C4_validate_message_properties :
    (∀ o₂ o₃, (validateMessageProperties ⟨none, o₂, o₃⟩).retryCount = 5)
    ∧ (∀ q o₂ o₃, (validateMessageProperties ⟨some q, o₂, o₃⟩).retryCount = max 1 (toInt32 q)
        ∧ 1 ≤ (validateMessageProperties ⟨some q, o₂, o₃⟩).retryCount)
    ∧ (∀ o₁ o₃, (validateMessageProperties ⟨o₁, none, o₃⟩).timeout = 60)
    ∧ (∀ q o₁ o₃, (validateMessageProperties ⟨o₁, some q, o₃⟩).timeout = max 1 (toInt32 q)
        ∧ 1 ≤ (validateMessageProperties ⟨o₁, some q, o₃⟩).timeout)
    ∧ (∀ o₁ o₂, (validateMessageProperties ⟨o₁, o₂, none⟩).timeoutGrowFactor = 1.2)
    ∧ (∀ method mkMsg net g fuel t, (∀ q, mkMsg q = .ok ()) → (∀ i, net i = none) →
        (retryLoop method mkMsg net g fuel 0 t).1 = (List.range fuel).map fun i => t * g ^ i) := by
  refine ⟨?_, ?_, ?_, ?_, ?_, ?_⟩
  · intro o₂ o₃; rfl
  · intro q o₂ o₃
    exact ⟨rfl, le_max_left 1 (toInt32 q)⟩
  · intro o₁ o₃; cases o₁ <;> rfl
  · intro q o₁ o₃
    cases o₁ <;> exact ⟨rfl, le_max_left 1 (toInt32 q)⟩
  · intro o₁ o₂; cases o₁ <;> cases o₂ <;> rfl
  · intro method mkMsg net g fuel t hmk hnet
    rw [retryLoop_allNone _ _ _ _ hmk hnet]

/-- C5: with `local === true` the entire retry loop is bypassed: the handler
behaves identically for any two network environments (the network send
primitive is never consulted), exactly one message is built, with the fixed
timeout 60, and the outcome is the local execution's transaction handled
through the best-effort decoder. -/
theorem C5_local_flag_bypass (method : String) (props : ValidatedMessageProperties)
    (mkMsg : ℚ → Except String Unit) (net net' : Nat → Option Transaction)
    (localExec : Except String Transaction)
    (decode : Transaction → Except String (Option TokensObject)) :
    externalSendFlow method props mkMsg net localExec decode (some true)
      = externalSendFlow method props mkMsg net' localExec decode (some true)
    ∧ (externalSendFlow method props mkMsg net localExec decode (some true)).1 = [60]
    ∧ (∀ tx, mkMsg 60 = .ok () → localExec = .ok tx →
        (externalSendFlow method props mkMsg net localExec decode (some true)).2
          = .ok (handleTransaction decode tx)) := by
  refine ⟨by simp [externalSendFlow], ?_, ?_⟩
  · rw [externalSendFlow.eq_def, if_pos rfl]
    cases mkMsg 60 <;> [skip; cases localExec] <;> simp
  · intro tx h1 h2
    rw [externalSendFlow.eq_def, if_pos rfl, h1, h2]

/-- Every success of the external-send flow is a transaction passed through
`handleTransaction` with the flow's decoder. -/
theorem externalSendFlow_ok_form (method : String) (props : ValidatedMessageProperties)
    (mkMsg : ℚ → Except String Unit) (net : Nat → Option Transaction)
    (localExec : Except String Transaction)
    (decode : Transaction → Except String (Option TokensObject))
    (localFlag : Option Bool) (r : SendResult)
    (h : (externalSendFlow method props mkMsg net localExec decode localFlag).2 = .ok r) :
    ∃ tx, r = handleTransaction decode tx := by
  unfold externalSendFlow at h
  by_cases hl : localFlag = some true
  · rw [if_pos hl] at h
    cases hm : mkMsg 60 <;> rw [hm] at h
    · simp at h
    · cases hle : localExec <;> rw [hle] at h
      · simp at h
      · simp at h
        exact ⟨_, h.symm⟩
  · rw [if_neg hl] at h
    simp only [] at h
    cases hloop : (retryLoop method mkMsg net props.timeoutGrowFactor
        props.retryCount.toNat 0 (props.timeout : ℚ)).2 with
    | error e => rw [hloop] at h; simp at h
    | ok o =>
      cases o with
      | some tx =>
        rw [hloop] at h
        simp at h
        exact ⟨_, h.symm⟩
      | none =>
        rw [hloop] at h
        cases hm : mkMsg 60 <;> rw [hm] at h
        · simp at h
        · cases hle : localExec <;> rw [hle] at h <;> simp at h

/-- C7: decoding the confirmed transaction's output is best-effort — a
decoder failure leaves the operation successful with the transaction and an
absent output, and every successful result of the flow is of that handled
form, so a decode failure is never propagated to the caller as an error. -/
theorem C7_decode_failure_swallowed (method : String)
    (props : ValidatedMessageProperties) (mkMsg : ℚ → Except String Unit)
    (net : Nat → Option Transaction) (localExec : Except String Transaction)
    (decode : Transaction → Except String (Option TokensObject))
    (localFlag : Option Bool) (r : SendResult) (tx : Transaction) (e : String)
    (h : (externalSendFlow method props mkMsg net localExec decode localFlag).2 = .ok r)
    (hd : decode tx = .error e) :
    r = handleTransaction decode r.transaction
    ∧ handleTransaction decode tx = { transaction := tx, output := none } := by
  obtain ⟨tx', rfl⟩ := externalSendFlow_ok_form _ _ _ _ _ _ _ _ h
  exact ⟨rfl, by simp [handleTransaction, hd]⟩

/-- C6: a successful `sendMessageDelayed` / `sendExternalMessageDelayed`
returns `\x7b account, hash, expireAt \x7d` immediately — the returned value
is a fixed function of the signed message, independent of how the background
send later settles — and when the background send resolves, exactly one
`messageStatusUpdated` event is emitted carrying the same address and hash
together with the eventual transaction (or `none`). -/
theorem C6_delayed_send_return_and_event (addr : String) (msg : SignedMessage)
    (bg : Except String (Option Transaction)) (tx : Option Transaction) :
    (sendMessageDelayedTail addr msg bg).1
      = { account := addr, hash := msg.hash, expireAt := msg.expireAt }
    ∧ (sendExternalMessageDelayedTail addr msg bg).1
      = { account := addr, hash := msg.hash, expireAt := msg.expireAt }
    ∧ (bg = .ok tx →
        (sendMessageDelayedTail addr msg bg).2
          = [.messageStatusUpdated addr msg.hash tx]
        ∧ (sendExternalMessageDelayedTail addr msg bg).2
          = [.messageStatusUpdated addr msg.hash tx]) := by
  refine ⟨rfl, rfl, ?_⟩
  rintro rfl
  exact ⟨rfl, rfl⟩

/-- C10: when the background send promise of a delayed-send request rejects,
the rejection is swallowed: no `messageStatusUpdated` event is emitted, and
the already-returned `\x7b message \x7d` value is the same as it would be
for any other background outcome, so no error reaches the caller. -/
theorem C10_delayed_rejection_swallowed (addr : String) (msg : SignedMessage)
    (e : String) (bg' : Except String (Option Transaction)) :
    (sendMessageDelayedTail addr msg (.error e)).2 = []
    ∧ (sendExternalMessageDelayedTail addr msg (.error e)).2 = []
    ∧ (sendMessageDelayedTail addr msg (.error e)).1
        = (sendMessageDelayedTail addr msg bg').1
    ∧ (sendExternalMessageDelayedTail addr msg (.error e)).1
        = (sendExternalMessageDelayedTail addr msg bg').1 :=
  ⟨rfl, rfl, rfl, rfl⟩

/-- C1 (counterexample): the claim says a `sendMessage` provider request
drives the send through the bounded-retry state machine with the configured
budget and fails with `"Message expired"` plus an optional exit-code suffix
only if all retries and the local fallback cannot confirm. With the default
budget of 5 retries and a network in which the first attempt expires but a
second attempt would confirm, the handler nevertheless fails immediately
after a single attempt with the bare `"sendMessage: Message expired"` error:
it never consults the retry budget, never retries, and never falls back to
local execution. -/
theorem C1_counterexample :
    sendMessageHandler (some (.ok ()))
        (fun i => if i = 0 then none else some ⟨1, some 60⟩)
      = (1, .error (.rpc ⟨2, "sendMessage: Message expired"⟩))
    ∧ (fun i => if i = 0 then none else some (⟨1, some 60⟩ : Transaction)) 1
        = some ⟨1, some 60⟩
    ∧ (validateMessageProperties ⟨none, none, none⟩).retryCount = 5 :=
  ⟨rfl, rfl, rfl⟩

/-- C1 (amended): for every `sendMessage` provider request with a resolvable
sender account, the handler performs exactly one confirmed-send attempt via
the subscription controller; it returns the transaction when that attempt
confirms and fails with exactly `"sendMessage: Message expired"` — no
retries, no local fallback, no exit-code suffix — when it resolves without
confirmation. -/
theorem C1_sendMessage_single_attempt (net : Nat → Option Transaction) :
    (sendMessageHandler (some (.ok ())) net).1 = 1
    ∧ (∀ tx, net 0 = some tx →
        (sendMessageHandler (some (.ok ())) net).2 = .ok tx)
    ∧ (net 0 = none → (sendMessageHandler (some (.ok ())) net).2
        = .error (.rpc ⟨2, "sendMessage: Message expired"⟩)) := by
  refine ⟨?_, ?_, ?_⟩
  · cases h : net 0 <;> simp [sendMessageHandler, h]
  · intro tx h
    simp [sendMessageHandler, h]
  · intro h
    simp only [sendMessageHandler, h]
    rfl

/-- C8 (counterexample): the claim says every user-visible failure raised by
the public request interface carries a `"\x7bmethod\x7d: \x7bdetail\x7d"`
message together with a machine-readable numeric code. In the force-local
path of the external-send handlers the `sendMessageLocally` rejection is not
caught: it propagates to the caller unwrapped, as a raw error that is not a
`NekotonRpcError` at all — it carries no numeric code and no method-prefixed
message. -/
theorem C8_counterexample :
    (externalSendFlow "sendExternalMessage" ⟨5, 60, 6/5⟩ (fun _ => .ok ())
        (fun _ => none) (.error "Error: execution failed") (fun _ => .ok none)
        (some true)).2
      = .error (.raw "Error: execution failed")
    ∧ ThrownError.isMethodPrefixedRpc "sendExternalMessage"
        (.raw "Error: execution failed") = false :=
  ⟨rfl, rfl⟩

/-- C8 (amended): every failure raised through the `invalidRequest` wrapper
— which covers every `NekotonRpcError` produced by the embedded handlers —
carries the message `"\x7bmethod\x7d: \x7bdetail\x7d"` together with the
numeric code 2; however, a local-execution rejection in the force-local path
of the external-send handlers propagates to the caller unwrapped, outside
this format. -/
theorem C8_rpc_errors_are_method_prefixed :
    (∀ method detail, (invalidRequest method detail).code = 2
      ∧ (invalidRequest method detail).message = method ++ ": " ++ detail)
    ∧ (∀ method props mkMsg net localExec decode localFlag e,
        (externalSendFlow method props mkMsg net localExec decode localFlag).2
          = .error (.rpc e) → ∃ d, e = invalidRequest method d)
    ∧ (∀ account net e, (sendMessageHandler account net).2 = .error (.rpc e) →
        ∃ d, e = invalidRequest "sendMessage" d) := by
  refine ⟨fun method detail => ⟨rfl, rfl⟩, ?_, ?_⟩
  · intro method props mkMsg net localExec decode localFlag e h
    unfold externalSendFlow at h
    by_cases hl : localFlag = some true
    · rw [if_pos hl] at h
      cases hm : mkMsg 60 <;> rw [hm] at h
      · simp at h
        exact ⟨_, h.symm⟩
      · cases hle : localExec <;> rw [hle] at h <;> simp at h
    · rw [if_neg hl] at h
      simp only [] at h
      cases hloop : (retryLoop method mkMsg net props.timeoutGrowFactor
          props.retryCount.toNat 0 (props.timeout : ℚ)).2 with
      | error e' =>
        rw [hloop] at h
        simp at h
        obtain ⟨d, hd⟩ := retryLoop_error_form method mkMsg net
          props.timeoutGrowFactor props.retryCount.toNat 0 (props.timeout : ℚ) e' hloop
        exact ⟨d, h.symm ▸ hd⟩
      | ok o =>
        cases o with
        | some tx => rw [hloop] at h; simp at h
        | none =>
          rw [hloop] at h
          cases hm : mkMsg 60 <;> rw [hm] at h
          · simp at h
            exact ⟨_, h.symm⟩
          · cases hle : localExec <;> rw [hle] at h <;> simp at h
            · exact ⟨_, h.symm⟩
            · exact ⟨_, h.symm⟩
  · intro account net e h
    match account with
    | none =>
      simp [sendMessageHandler] at h
      exact ⟨_, h.symm⟩
    | some (.error s) =>
      simp [sendMessageHandler] at h
      exact ⟨_, h.symm⟩
    | some (.ok _) =>
      cases hn : net 0 <;> simp [sendMessageHandler, hn] at h
      exact ⟨_, h.symm⟩

/-- The permission loop succeeds when every requested permission is
supported. -/
theorem processPermissions_ok (cur : PermMap) (perms : List Permission)
    (h : ∀ p ∈ perms, p.supported = true) :
    ∃ final, processPermissions cur perms = .ok final := by
  induction perms generalizing cur with
  | nil => exact ⟨cur, rfl⟩
  | cons p rest ih =>
    cases p with
    | basic => exact ih _ fun q hq => h q (List.mem_cons_of_mem _ hq)
    | tonClient => exact ih _ fun q hq => h q (List.mem_cons_of_mem _ hq)
    | other name =>
      have := h (.other name) (List.mem_cons_self _ _)
      simp [Permission.supported] at this

/-- The permission loop throws when some requested permission is
unsupported. -/
theorem processPermissions_error (cur : PermMap) (perms : List Permission)
    (h : ∃ p ∈ perms, p.supported = false) :
    ∃ e, processPermissions cur perms = .error e := by
  induction perms generalizing cur with
  | nil =>
    obtain ⟨p, hp, _⟩ := h
    simp at hp
  | cons p rest ih =>
    cases p with
    | basic =>
      refine ih _ ?_
      obtain ⟨q, hq, hsup⟩ := h
      rcases List.mem_cons.mp hq with hq | hq
      · rw [hq] at hsup; simp [Permission.supported] at hsup
      · exact ⟨q, hq, hsup⟩
    | tonClient =>
      refine ih _ ?_
      obtain ⟨q, hq, hsup⟩ := h
      rcases List.mem_cons.mp hq with hq | hq
      · rw [hq] at hsup; simp [Permission.supported] at hsup
      · exact ⟨q, hq, hsup⟩
    | other name => exact ⟨_, rfl⟩

/-- C9: `requestPermissions` is atomic on error and hands out a copy on
success. If any requested permission other than `'basic'` / `'tonClient'`
is present, the call throws and the context's stored permissions object and
its content are unchanged. If all requested permissions are supported, the
call returns a reference distinct from the one the context now stores, with
equal content, so mutating the returned object never alters what a later
`getProviderState` reads from the context. -/
theorem C9_request_permissions_atomic_and_copy (h : Heap) (ctx : Ctx)
    (perms : List Permission) (hwf : ctx.permissionsRef < h.cells.length) :
    ((∃ p ∈ perms, p.supported = false) →
      (requestPermissionsModel h ctx perms).2.2.2.isOk = false
      ∧ (requestPermissionsModel h ctx perms).2.1 = ctx
      ∧ (requestPermissionsModel h ctx perms).1.read ctx.permissionsRef
          = h.read ctx.permissionsRef)
    ∧ ((∀ p ∈ perms, p.supported = true) →
      ∀ ref, (requestPermissionsModel h ctx perms).2.2.2 = .ok ref →
        ref ≠ (requestPermissionsModel h ctx perms).2.1.permissionsRef
        ∧ (requestPermissionsModel h ctx perms).1.read ref
            = (requestPermissionsModel h ctx perms).1.read
                (requestPermissionsModel h ctx perms).2.1.permissionsRef
        ∧ ∀ v, getProviderStatePermissions
              ((requestPermissionsModel h ctx perms).1.write ref v)
              (requestPermissionsModel h ctx perms).2.1
            = getProviderStatePermissions (requestPermissionsModel h ctx perms).1
                (requestPermissionsModel h ctx perms).2.1) := by
  constructor
  · intro hbad
    obtain ⟨e, he⟩ := processPermissions_error
      ((h.read ctx.permissionsRef).getD { basic := none }) perms hbad
    simp only [requestPermissionsModel, he]
    refine ⟨rfl, trivial, ?_⟩
    show (h.cells ++ [_])[ctx.permissionsRef]? = h.cells[ctx.permissionsRef]?
    exact List.getElem?_append_left hwf
  · intro hgood ref href
    obtain ⟨final, hf⟩ := processPermissions_ok
      ((h.read ctx.permissionsRef).getD { basic := none }) perms hgood
    simp only [requestPermissionsModel, hf, Except.ok.injEq] at href ⊢
    simp only [Heap.alloc, Heap.write, Heap.read, getProviderStatePermissions] at href ⊢
    subst href
    generalize h.cells[ctx.permissionsRef]?.getD { basic := none } = cur at *
    have hlen : ((h.cells ++ [cur]).set h.cells.length final).length
        = h.cells.length + 1 := by simp
    refine ⟨by rw [hlen]; omega, ?_, ?_⟩
    · rw [List.getElem?_concat_length]
      rw [List.getElem?_append_left (by rw [hlen]; omega)]
      rw [List.getElem?_set_eq_of_lt final (by simp)]
    · intro v
      congr 1
      exact List.getElem?_set_ne (by rw [hlen]; omega)

/-- Witness for C2 at a concrete environment: message construction always
succeeds and no attempt confirms. -/
theorem C2_witness :
    (retryLoop "sendExternalMessage" (fun _ => .ok ()) (fun _ => none)
        (validateMessageProperties ⟨some 5, some 60, some 1.2⟩).timeoutGrowFactor
        (validateMessageProperties ⟨some 5, some 60, some 1.2⟩).retryCount.toNat 0
        ((validateMessageProperties ⟨some 5, some 60, some 1.2⟩).timeout : ℚ)).1
      = [60, 72, 86.4, 103.68, 124.416] :=
  (C2_retry_timeout_sequence (fun _ => .ok ()) (fun _ => none)
    (fun _ => rfl) (fun _ => rfl)).1

/-- Witness for C3 at a concrete environment: one retry, no confirmation,
local fallback yields a transaction with exit code 60. -/
theorem C3_witness :
    (externalSendFlow "sendExternalMessage" ⟨1, 1, 6/5⟩ (fun _ => .ok ())
        (fun _ => none) (.ok ⟨0, some 60⟩) (fun _ => .ok none) none).2
      = .error (.rpc ⟨2, "sendExternalMessage: "
          ++ ("Message expired" ++ exitCodeSuffix ⟨0, some 60⟩)⟩) :=
  (C3_message_expired_after_fallback "sendExternalMessage" ⟨1, 1, 6/5⟩
    (fun _ => .ok ()) (fun _ => none) (fun _ => .ok none) ⟨0, some 60⟩ none
    (fun _ => rfl) (fun _ => rfl) (by simp)).1

/-- Witness for C4 at concrete inputs: a supplied fractional timeout is
truncated and clamped, and a two-attempt loop uses cumulative growth. -/
theorem C4_witness :
    (validateMessageProperties ⟨none, some (37/10), none⟩).timeout
      = max 1 (toInt32 (37/10))
    ∧ (retryLoop "m" (fun _ => .ok ()) (fun _ => none) (6/5) 2 0 60).1
      = (List.range 2).map fun i => 60 * (6/5) ^ i :=
  ⟨(C4_validate_message_properties.2.2.2.1 (37/10) none none).1,
    C4_validate_message_properties.2.2.2.2.2 "m" (fun _ => .ok ()) (fun _ => none)
      (6/5) 2 60 (fun _ => rfl) (fun _ => rfl)⟩

/-- Witness for C5 at a concrete environment: with the force-local flag, the
outcome is the locally executed transaction passed through the decoder. -/
theorem C5_witness :
    (externalSendFlow "m" ⟨5, 60, 6/5⟩ (fun _ => .ok ()) (fun _ => none)
        (.ok ⟨0, none⟩) (fun _ => .ok none) (some true)).2
      = .ok (handleTransaction (fun _ => .ok none) ⟨0, none⟩) :=
  (C5_local_flag_bypass "m" ⟨5, 60, 6/5⟩ (fun _ => .ok ()) (fun _ => none)
    (fun _ => some ⟨9, none⟩) (.ok ⟨0, none⟩) (fun _ => .ok none)).2.2
    ⟨0, none⟩ rfl rfl

/-- Witness for C6 at a concrete resolved background send. -/
theorem C6_witness :
    (sendMessageDelayedTail "addr" ⟨"hash", 100⟩ (.ok none)).2
      = [.messageStatusUpdated "addr" "hash" none] :=
  ((C6_delayed_send_return_and_event "addr" ⟨"hash", 100⟩ (.ok none) none).2.2
    rfl).1

/-- Witness for C7 at a concrete run whose decoder always throws: the flow
succeeded anyway and the handled result has no output. -/
theorem C7_witness :
    (⟨⟨0, none⟩, none⟩ : SendResult)
      = handleTransaction (fun _ => .error "bad")
          (SendResult.transaction ⟨⟨0, none⟩, none⟩)
    ∧ handleTransaction (fun _ => .error "bad") ⟨0, none⟩
      = { transaction := ⟨0, none⟩, output := none } :=
  C7_decode_failure_swallowed "m" ⟨5, 60, 6/5⟩ (fun _ => .ok ()) (fun _ => none)
    (.ok ⟨0, none⟩) (fun _ => .error "bad") (some true) ⟨⟨0, none⟩, none⟩
    ⟨0, none⟩ "bad" rfl rfl

/-- Witness for C1's amended theorem at a network that never confirms. -/
theorem C1_witness :
    (sendMessageHandler (some (.ok ())) (fun _ => none)).2
      = .error (.rpc ⟨2, "sendMessage: Message expired"⟩) :=
  (C1_sendMessage_single_attempt (fun _ => none)).2.2 rfl

/-- Witness for C8's amended theorem: a concrete `invalidRequest` error and
a concrete flow failure both carry the `\x7bmethod\x7d: \x7bdetail\x7d`
format with code 2. -/
theorem C8_witness :
    ((invalidRequest "sendMessage" "Message expired").code = 2
      ∧ (invalidRequest "sendMessage" "Message expired").message
          = "sendMessage" ++ ": " ++ "Message expired")
    ∧ ∃ d, (⟨2, "m: boom"⟩ : RpcError) = invalidRequest "m" d :=
  ⟨C8_rpc_errors_are_method_prefixed.1 "sendMessage" "Message expired",
    C8_rpc_errors_are_method_prefixed.2.1 "m" ⟨5, 60, 6/5⟩ (fun _ => .error "boom")
      (fun _ => none) (.ok ⟨0, none⟩) (fun _ => .ok none) (some true)
      ⟨2, "m: boom"⟩ rfl⟩

/-- Witness for C9 at a concrete heap with one stored permissions object and
a supported request: the returned reference is distinct from the stored one
but has equal content. -/
theorem C9_witness :
    (2 : Nat) ≠ (requestPermissionsModel ⟨[⟨none⟩]⟩ ⟨0⟩ [.basic]).2.1.permissionsRef
    ∧ (requestPermissionsModel ⟨[⟨none⟩]⟩ ⟨0⟩ [.basic]).1.read 2
      = (requestPermissionsModel ⟨[⟨none⟩]⟩ ⟨0⟩ [.basic]).1.read
          (requestPermissionsModel ⟨[⟨none⟩]⟩ ⟨0⟩ [.basic]).2.1.permissionsRef := by
  have hc := (C9_request_permissions_atomic_and_copy ⟨[⟨none⟩]⟩ ⟨0⟩ [.basic]
    (by decide)).2 (by decide) 2 rfl
  exact ⟨hc.1, hc.2.1⟩

end StandaloneClient
